import Mathlib

/-!
Verification of the bounded-concurrency load tester
(`scripts/load-testing/optimized-test.py`) against its specification.

The Python program is embedded shallowly:
* one HTTP attempt is abstracted by the `HttpResult` the transport produces
  (a response with a status code and body, or a raised exception such as a
  timeout or connection failure);
* wall-clock readings (`time.time()`) are abstract rational inputs;
* Python `float` arithmetic is modelled over `ℚ` (the statistics involved
  are exact field operations);
* code paths that can raise are modelled in `Except PyErr`.
-/

namespace LoadTest

/-- The JSON body of a response, as far as `make_request` inspects it:
`result["choices"][0]["message"]["content"]` (absent when the body is
malformed, in which case the Python subscripting raises and the `except`
clause catches it) and `result.get("model", "unknown")`. -/
structure RespBody where
  content : Option String
  model : Option String
deriving DecidableEq, Repr

/-- What the transport does for one request: either a response arrives
(carrying the HTTP status, the measured latency in ms, and the body), or the
awaited call raises (transport failure, DNS error, or the 30 s
`aiohttp.ClientTimeout`), carrying the latency measured in the `except`
block. -/
inductive HttpResult where
  | response (status : Nat) (latency : ℚ) (body : RespBody)
  | raised (msg : String) (latency : ℚ)
deriving DecidableEq, Repr

/-- Per-request environment: the wall-clock `start_time` and the transport's
behaviour.  `excLatency` is the latency re-measured by the `except` handler
when a 200 response has a malformed body (the subscripting raises after the
first latency was taken, and the handler computes a fresh
`end_time - start_time`). -/
structure RequestEnv where
  start : ℚ
  http : HttpResult
  excLatency : ℚ
deriving DecidableEq, Repr

/-- Cause recorded in an error outcome: the numeric HTTP status
(`error_code` field) or the exception text (`error` field, `str(e)`). -/
inductive ErrorCause where
  | code (c : Nat)
  | message (s : String)
deriving DecidableEq, Repr

/-- A `RequestOutcome`: the dict returned by `make_request`, which always has
`request_id`, `status` ("success"/"error"), `latency_ms` and `timestamp`,
plus `tokens_generated`/`model` on success or an error cause on error. -/
inductive Outcome where
  | success (request_id : Nat) (latency_ms : ℚ) (tokens_generated : Nat)
      (timestamp : ℚ) (model : String)
  | error (request_id : Nat) (latency_ms : ℚ) (cause : ErrorCause)
      (timestamp : ℚ)
deriving DecidableEq, Repr

def Outcome.request_id : Outcome → Nat
  | .success rid _ _ _ _ => rid
  | .error rid _ _ _ => rid

def Outcome.isSucc : Outcome → Bool
  | .success _ _ _ _ _ => true
  | .error _ _ _ _ => false

def Outcome.isErr : Outcome → Bool
  | .success _ _ _ _ _ => false
  | .error _ _ _ _ => true

def Outcome.latency_ms : Outcome → ℚ
  | .success _ l _ _ _ => l
  | .error _ l _ _ => l

def Outcome.tokens : Outcome → Nat
  | .success _ _ t _ _ => t
  | .error _ _ _ _ => 0

/-- `len(content.split())` in Python: `str.split()` with no argument splits
on runs of whitespace and drops empty fields, so the count is the number of
whitespace-delimited words. -/
def tokensOf (content : String) : Nat :=
  ((content.split fun c => c.isWhitespace).filter fun t => t ≠ "").length

/-- The message carried by the `KeyError`/`IndexError`/`TypeError` raised
when a 200 response body lacks `choices[0].message.content`; `str(e)` of
that exception.  Its exact text is irrelevant to every property below. -/
def malformedMsg : String := "KeyError"

/-- `OptimizedLoadTester.make_request`: issues one request and classifies
the outcome.  The whole body sits inside `try ... except Exception`, so the
function is total: a non-200 status yields an error outcome with the status
code, a raised transport/timeout exception yields an error outcome with the
exception text, and a 200 response with a malformed body raises inside the
`try` and is caught, yielding an error outcome with the handler's latency. -/
def make_request (env : RequestEnv) (request_id : Nat) : Outcome :=
  match env.http with
  | .raised msg latency =>
      .error request_id latency (.message msg) env.start
  | .response status latency body =>
      if status = 200 then
        match body.content with
        | some content =>
            .success request_id latency (tokensOf content) env.start
              (body.model.getD "unknown")
        | none =>
            .error request_id env.excLatency (.message malformedMsg) env.start
      else
        .error request_id latency (.code status) env.start

/-! ## The Python `statistics` functions used by the aggregator -/

/-- Exceptions that can escape the summary construction or the driver. -/
inductive PyErr where
  | statisticsError
  | keyError (key : String)
deriving DecidableEq, Repr

/-- `sorted(data)` for rationals. -/
def pySort (data : List ℚ) : List ℚ :=
  List.insertionSort (· ≤ ·) data

/-- `statistics.mean`: exact sum divided by length (only called on nonempty
lists by the program; Python raises on empty input, a case the guarded call
sites never reach). -/
def pyMean (data : List ℚ) : ℚ :=
  data.sum / data.length

/-- `statistics.median`: middle element of the sorted data for odd length,
average of the two middle elements for even length (only called on nonempty
lists by the program). -/
def pyMedian (data : List ℚ) : ℚ :=
  let s := pySort data
  let ld := data.length
  if ld % 2 = 1 then s.getD (ld / 2) 0
  else (s.getD (ld / 2 - 1) 0 + s.getD (ld / 2) 0) / 2

/-- `statistics.quantiles(data, n=n)` with the default `exclusive` method,
exactly as CPython implements it: raises `StatisticsError` when fewer than
two data points; otherwise for each `i` in `1..n-1` rescales to
`j = i*(ld+1)//n` clamped into `[1, ld-1]`, recomputes
`delta = i*(ld+1) - j*n` from the clamped `j` (so `delta` may leave
`[0, n]`, extrapolating past the extreme data points), and interpolates
`(data[j-1]*(n-delta) + data[j]*delta)/n` over the sorted data. -/
def quantEntry (s : List ℚ) (ld n i : Nat) : ℚ :=
  let m := ld + 1
  let j := min (max (i * m / n) 1) (ld - 1)
  let delta : ℤ := (i * m : ℤ) - (j * n : ℤ)
  (s.getD (j - 1) 0 * ((n : ℚ) - (delta : ℚ)) + s.getD j 0 * delta) / n

/-- `statistics.quantiles(data, n=n)`, default `exclusive` method: raises
`StatisticsError` for fewer than two data points, else the `n-1` cut points
`quantEntry` over the sorted data. -/
def pyQuantiles (data : List ℚ) (n : Nat) : Except PyErr (List ℚ) :=
  if data.length < 2 then .error .statisticsError
  else .ok ((List.range' 1 (n - 1)).map (quantEntry (pySort data) data.length n))

/-! ## The summary -/

/-- The `latency_stats` block of the summary. -/
structure LatencyStats where
  mean_ms : ℚ
  median_ms : ℚ
  p95_ms : ℚ
  p99_ms : ℚ
  min_ms : ℚ
  max_ms : ℚ
deriving DecidableEq, Repr

/-- The `tokens_stats` block of the summary. -/
structure TokensStats where
  mean_tokens : ℚ
  total_tokens : Nat
deriving DecidableEq, Repr

/-- The summary dict.  Keys present only in one of the two branches of
`run_load_test` are `Option`s: `none` means the key is absent from the
dict. -/
structure Summary where
  total_requests : Nat
  successful_requests : Nat
  failed_requests : Nat
  success_rate : ℚ
  total_time_seconds : Option ℚ
  throughput_rps : Option ℚ
  latency_stats : Option LatencyStats
  tokens_stats : Option TokensStats
  error_flag : Option String
  concurrency : Option Nat
  configuration : String
deriving DecidableEq, Repr

/-- The `latency_stats` dict of the summary, computed from the latency list
of the successful requests (lines 117-124).  The two
`statistics.quantiles` calls raise `StatisticsError` when the list has
fewer than two elements. -/
def latencyStatsFrom (latencies : List ℚ) : Except PyErr LatencyStats := do
  let q20 ← pyQuantiles latencies 20
  let q100 ← pyQuantiles latencies 100
  .ok
    { mean_ms := pyMean latencies
      median_ms := pyMedian latencies
      p95_ms := q20.getD 18 0
      p99_ms := q100.getD 98 0
      min_ms := latencies.foldr min (latencies.getD 0 0)
      max_ms := latencies.foldr max (latencies.getD 0 0) }

/-- The result-processing tail of `run_load_test` (lines 102-142): given the
gathered outcome list and the wall-clock readings around the gather, build
the summary.  In the branch with at least one success the two
`statistics.quantiles` calls can raise `StatisticsError`, which propagates
out of `run_load_test`. -/
def summarize (num_requests concurrency : Nat) (startT endT : ℚ)
    (results : List Outcome) : Except PyErr Summary :=
  let successful := results.filter Outcome.isSucc
  let failed := results.filter Outcome.isErr
  if successful.isEmpty then
    .ok
      { total_requests := num_requests
        successful_requests := 0
        failed_requests := failed.length
        success_rate := 0
        total_time_seconds := none
        throughput_rps := none
        latency_stats := none
        tokens_stats := none
        error_flag := some "No successful requests"
        concurrency := none
        configuration := "optimized-vllm" }
  else do
    let latencies := successful.map Outcome.latency_ms
    let tokens_generated := successful.map Outcome.tokens
    let ls ← latencyStatsFrom latencies
    .ok
      { total_requests := num_requests
        successful_requests := successful.length
        failed_requests := failed.length
        success_rate := (successful.length : ℚ) / num_requests
        total_time_seconds := some (endT - startT)
        throughput_rps := some ((successful.length : ℚ) / (endT - startT))
        latency_stats := some ls
        tokens_stats := some
          { mean_tokens := pyMean (tokens_generated.map (Nat.cast : Nat → ℚ))
            total_tokens := tokens_generated.sum }
        error_flag := none
        concurrency := some concurrency
        configuration := "optimized-vllm" }

/-- The outcome list produced by `asyncio.gather(*tasks)` where
`tasks = [bounded_request(i) for i in range(num_requests)]`: `gather`
returns results in task order, one per request id. -/
def collectResults (num_requests : Nat) (envs : Nat → RequestEnv) :
    List Outcome :=
  (List.range num_requests).map fun i => make_request (envs i) i

/-- `OptimizedLoadTester.run_load_test`: dispatch all requests, gather the
outcomes, and summarise. -/
def run_load_test (num_requests concurrency : Nat) (envs : Nat → RequestEnv)
    (startT endT : ℚ) : Except PyErr Summary :=
  summarize num_requests concurrency startT endT
    (collectResults num_requests envs)

/-! ## The driver (`main`, lines 169-183) -/

/-- A line printed by `main`'s summary report. -/
inductive Line where
  | totalRequests (v : Nat)
  | successful (v : Nat)
  | failed (v : Nat)
  | successRate (v : ℚ)
  | throughput (v : ℚ)
  | meanLatency (v : ℚ)
  | p95Latency (v : ℚ)
  | p99Latency (v : ℚ)
deriving DecidableEq, Repr

/-- An observable step of the driver after `run_load_test` returns. -/
inductive Event where
  | saved
  | printed (l : Line)
deriving DecidableEq, Repr

/-- The tail of `main` after the summary is obtained: `save_results` writes
the file, then the summary lines print in order.  `summary['throughput_rps']`
is a plain subscript: when the key is absent it raises `KeyError` after the
first four lines have already printed.  The latency lines are guarded by
`if 'latency_stats' in summary`.  Returns the trace of events together with
the exception, if one escaped. -/
def mainAfterSummary (s : Summary) : List Event × Option PyErr :=
  let head := [Event.saved,
    Event.printed (.totalRequests s.total_requests),
    Event.printed (.successful s.successful_requests),
    Event.printed (.failed s.failed_requests),
    Event.printed (.successRate s.success_rate)]
  match s.throughput_rps with
  | none => (head, some (.keyError "throughput_rps"))
  | some v =>
      let head := head ++ [Event.printed (.throughput v)]
      match s.latency_stats with
      | none => (head, none)
      | some ls =>
          (head ++ [Event.printed (.meanLatency ls.mean_ms),
            Event.printed (.p95Latency ls.p95_ms),
            Event.printed (.p99Latency ls.p99_ms)], none)

/-! ## The concurrency limiter

`run_load_test` creates `asyncio.Semaphore(concurrency)` and each
`bounded_request` runs `async with semaphore: await make_request(...)`.
We model the run as a transition system: each task is waiting for the
semaphore, inside its network call, or done; acquiring requires a free
permit and takes one, finishing the call returns it. -/

/-- Phase of one `bounded_request` task. -/
inductive Phase where
  | waiting
  | inCall
  | done
deriving DecidableEq, Repr

def Phase.isInCall : Phase → Bool
  | .inCall => true
  | _ => false

/-- State of a run: free permits of the semaphore and the phase of each
task. -/
structure SemState where
  sem : Nat
  tasks : List Phase
deriving DecidableEq, Repr

/-- Number of tasks whose network call is currently open. -/
def inCalls (s : SemState) : Nat :=
  s.tasks.countP Phase.isInCall

/-- Interleaving steps of the semaphore-gated run: a waiting task acquires a
free permit and opens its call; a task whose call completes closes it and
releases the permit. -/
inductive SemStep : SemState → SemState → Prop where
  | acquire (k : Nat) (pre post : List Phase) :
      SemStep ⟨k + 1, pre ++ Phase.waiting :: post⟩
        ⟨k, pre ++ Phase.inCall :: post⟩
  | release (k : Nat) (pre post : List Phase) :
      SemStep ⟨k, pre ++ Phase.inCall :: post⟩
        ⟨k + 1, pre ++ Phase.done :: post⟩

/-- States reachable in a run with concurrency `c` and `n` tasks: initially
the semaphore holds `c` permits and every task waits. -/
inductive SemReach (c n : Nat) : SemState → Prop where
  | init : SemReach c n ⟨c, List.replicate n Phase.waiting⟩
  | step {s t : SemState} : SemReach c n s → SemStep s t → SemReach c n t

/-! ## Concrete environments used by witnesses -/

/-- A transport behaviour that succeeds: status 200, 50 ms, a three-word
body. -/
def okEnv : RequestEnv :=
  ⟨0, .response 200 50 ⟨some "fine tuned reply", some "llama"⟩, 0⟩

/-- A transport behaviour that raises (e.g. connection refused). -/
def badEnv : RequestEnv :=
  ⟨0, .raised "Cannot connect to host" 5, 0⟩

/-! ## Basic lemmas -/

theorem make_request_request_id (env : RequestEnv) (i : Nat) :
    (make_request env i).request_id = i := by
  unfold make_request
  cases env.http with
  | raised msg lat => rfl
  | response st lat body =>
    by_cases h : st = 200
    · cases hc : body.content <;> simp [h, hc, Outcome.request_id]
    · simp [h, Outcome.request_id]

theorem collectResults_map_request_id (n : Nat) (envs : Nat → RequestEnv) :
    (collectResults n envs).map Outcome.request_id = List.range n := by
  unfold collectResults
  rw [List.map_map]
  have h : ∀ i ∈ List.range n,
      (Outcome.request_id ∘ fun i => make_request (envs i) i) i = i :=
    fun i _ => make_request_request_id _ _
  rw [List.map_congr_left h]
  simp

theorem countP_replicate_waiting (m : Nat) :
    (List.replicate m Phase.waiting).countP Phase.isInCall = 0 := by
  induction m with
  | zero => rfl
  | succ k ih => simp [List.replicate_succ, List.countP_cons, ih, Phase.isInCall]

/-- The semaphore invariant: free permits plus open calls always equals the
configured concurrency. -/
theorem semReach_invariant {c n : Nat} {s : SemState} (h : SemReach c n s) :
    s.sem + inCalls s = c := by
  induction h with
  | init => simp [inCalls, countP_replicate_waiting]
  | step _ hs ih =>
    cases hs with
    | acquire k pre post =>
      unfold inCalls at ih ⊢
      simp [List.countP_append, List.countP_cons, Phase.isInCall] at ih ⊢
      omega
    | release k pre post =>
      unfold inCalls at ih ⊢
      simp [List.countP_append, List.countP_cons, Phase.isInCall] at ih ⊢
      omega

/-! ## The claims -/

/-- C2: for every valid config (`total_requests > 0`, concurrency in
`[1, total_requests]`), the collected result set has exactly
`total_requests` outcomes and their request ids are exactly
`0..total_requests-1`, each appearing once. -/
theorem run_collects_all_request_ids (n c : Nat) (envs : Nat → RequestEnv)
    (hn : 0 < n) (hc : 1 ≤ c ∧ c ≤ n) :
    (collectResults n envs).length = n ∧
    (collectResults n envs).map Outcome.request_id = List.range n ∧
    ((collectResults n envs).map Outcome.request_id).Nodup := by
  have key := collectResults_map_request_id n envs
  refine ⟨?_, key, key ▸ List.nodup_range n⟩
  unfold collectResults
  simp

/-- Witness for C2 at `n = 3`, `c = 2`. -/
theorem run_collects_all_request_ids_witness :
    (0 < 3 ∧ 1 ≤ 2 ∧ 2 ≤ 3) ∧
    ((collectResults 3 fun _ => okEnv).length = 3 ∧
      (collectResults 3 fun _ => okEnv).map Outcome.request_id = List.range 3 ∧
      ((collectResults 3 fun _ => okEnv).map Outcome.request_id).Nodup) :=
  ⟨by decide,
    run_collects_all_request_ids 3 2 (fun _ => okEnv) (by decide)
      ⟨by decide, by decide⟩⟩

theorem isSucc_eq_false_of_isErr {o : Outcome} (h : o.isErr = true) :
    o.isSucc = false := by
  cases o <;> simp [Outcome.isSucc, Outcome.isErr] at h ⊢

/-- When every dispatched request produces an error outcome, the run takes
the zero-success branch and returns the flagged summary. -/
theorem run_of_all_fail (n c : Nat) (envs : Nat → RequestEnv) (t0 t1 : ℚ)
    (hfail : ∀ i, i < n → (make_request (envs i) i).isErr = true) :
    run_load_test n c envs t0 t1 = .ok
      { total_requests := n
        successful_requests := 0
        failed_requests := ((collectResults n envs).filter Outcome.isErr).length
        success_rate := 0
        total_time_seconds := none
        throughput_rps := none
        latency_stats := none
        tokens_stats := none
        error_flag := some "No successful requests"
        concurrency := none
        configuration := "optimized-vllm" } := by
  have hnil : (collectResults n envs).filter Outcome.isSucc = [] := by
    rw [List.filter_eq_nil_iff]
    intro a ha
    unfold collectResults at ha
    obtain ⟨i, hi, rfl⟩ := List.mem_map.mp ha
    have h := hfail i (List.mem_range.mp hi)
    simp [isSucc_eq_false_of_isErr h]
  simp [run_load_test, summarize, hnil]

/-- Characterization of the success branch of `summarize` when the latency
statistics computation succeeds. -/
theorem summarize_cons_ok (n c : Nat) (t0 t1 : ℚ) (results : List Outcome)
    (a : Outcome) (l : List Outcome) (ls : LatencyStats)
    (hfil : results.filter Outcome.isSucc = a :: l)
    (hls : latencyStatsFrom ((a :: l).map Outcome.latency_ms) = .ok ls) :
    summarize n c t0 t1 results = .ok
      { total_requests := n
        successful_requests := (a :: l).length
        failed_requests := (results.filter Outcome.isErr).length
        success_rate := ((a :: l).length : ℚ) / n
        total_time_seconds := some (t1 - t0)
        throughput_rps := some (((a :: l).length : ℚ) / (t1 - t0))
        latency_stats := some ls
        tokens_stats := some
          { mean_tokens :=
              pyMean (((a :: l).map Outcome.tokens).map (Nat.cast : Nat → ℚ))
            total_tokens := ((a :: l).map Outcome.tokens).sum }
        error_flag := none
        concurrency := some c
        configuration := "optimized-vllm" } := by
  simp only [summarize, hfil]
  rw [if_neg (by simp)]
  rw [hls]
  rfl

/-- Characterization of the success branch of `summarize` when the latency
statistics computation raises. -/
theorem summarize_cons_err (n c : Nat) (t0 t1 : ℚ) (results : List Outcome)
    (a : Outcome) (l : List Outcome) (e : PyErr)
    (hfil : results.filter Outcome.isSucc = a :: l)
    (hls : latencyStatsFrom ((a :: l).map Outcome.latency_ms) = .error e) :
    summarize n c t0 t1 results = .error e := by
  simp only [summarize, hfil]
  rw [if_neg (by simp)]
  rw [hls]
  rfl

/-! ## Interpolation lemmas for the percentile computation -/

theorem getD_sorted_mono {s : List ℚ} (hs : List.Sorted (· ≤ ·) s)
    {i j : Nat} (hij : i ≤ j) (hj : j < s.length) :
    s.getD i 0 ≤ s.getD j 0 := by
  have hi : i < s.length := lt_of_le_of_lt hij hj
  rw [List.getD_eq_getElem s 0 hi, List.getD_eq_getElem s 0 hj]
  have h := @List.Sorted.rel_get_of_le ℚ (· ≤ ·) _ s hs ⟨i, hi⟩ ⟨j, hj⟩ hij
  simpa using h

/-- The value the exclusive quantile method assigns to the real-valued rank
`r`: index `j = clamp(floor r, 1, ld-1)` and the value of the line through
`(j, s[j-1])` and `(j+1, s[j])` at `r`. -/
def interpAt (s : List ℚ) (ld : Nat) (r : ℚ) : ℚ :=
  let j := min (max ⌊r⌋₊ 1) (ld - 1)
  s.getD (j - 1) 0 + (r - j) * (s.getD j 0 - s.getD (j - 1) 0)

/-- On a sorted list the rank-interpolation is monotone in the rank: the
segments share endpoints and all have nonnegative slope, and outside
`[1, ld]` the extreme segment is extended linearly. -/
theorem interpAt_mono {s : List ℚ} (hs : List.Sorted (· ≤ ·) s) {ld : Nat}
    (hlen : s.length = ld) (h2 : 2 ≤ ld) {r1 r2 : ℚ} (hr : r1 ≤ r2) :
    interpAt s ld r1 ≤ interpAt s ld r2 := by
  simp only [interpAt]
  set f1 := ⌊r1⌋₊ with hf1
  set f2 := ⌊r2⌋₊ with hf2
  set j1 := min (max f1 1) (ld - 1) with hj1
  set j2 := min (max f2 1) (ld - 1) with hj2
  have hff : f1 ≤ f2 := Nat.floor_le_floor hr
  have hj12 : j1 ≤ j2 := by omega
  have hd1 : s.getD (j1 - 1) 0 ≤ s.getD j1 0 :=
    getD_sorted_mono hs (by omega) (by omega)
  have hd2 : s.getD (j2 - 1) 0 ≤ s.getD j2 0 :=
    getD_sorted_mono hs (by omega) (by omega)
  rcases eq_or_lt_of_le hj12 with heq | hlt
  · rw [← heq]
    have hmul : (r1 - (j1 : ℚ)) * (s.getD j1 0 - s.getD (j1 - 1) 0) ≤
        (r2 - (j1 : ℚ)) * (s.getD j1 0 - s.getD (j1 - 1) 0) :=
      mul_le_mul_of_nonneg_right (by linarith) (by linarith)
    linarith
  · have hr1le : r1 ≤ (j1 : ℚ) + 1 := by
      have h1 : f1 ≤ j1 := by omega
      have h2' := Nat.lt_floor_add_one r1
      rw [← hf1] at h2'
      have hc : (f1 : ℚ) ≤ (j1 : ℚ) := by exact_mod_cast h1
      linarith
    have hr2ge : (j2 : ℚ) ≤ r2 := by
      have h1 : j2 ≤ f2 := by omega
      have h0 : (0 : ℚ) ≤ r2 := by
        by_contra hneg
        push_neg at hneg
        have hz : ⌊r2⌋₊ = 0 := Nat.floor_eq_zero.mpr (by linarith)
        rw [← hf2] at hz
        omega
      have h3 := Nat.floor_le h0
      rw [← hf2] at h3
      have hc : (j2 : ℚ) ≤ (f2 : ℚ) := by exact_mod_cast h1
      linarith
    have hmid : s.getD j1 0 ≤ s.getD (j2 - 1) 0 :=
      getD_sorted_mono hs (by omega) (by omega)
    have hL : s.getD (j1 - 1) 0 +
        (r1 - (j1 : ℚ)) * (s.getD j1 0 - s.getD (j1 - 1) 0) ≤ s.getD j1 0 := by
      have hprod : 0 ≤ ((j1 : ℚ) + 1 - r1) *
          (s.getD j1 0 - s.getD (j1 - 1) 0) :=
        mul_nonneg (by linarith) (by linarith)
      nlinarith [hprod]
    have hR : s.getD (j2 - 1) 0 ≤ s.getD (j2 - 1) 0 +
        (r2 - (j2 : ℚ)) * (s.getD j2 0 - s.getD (j2 - 1) 0) := by
      have hprod : 0 ≤ (r2 - (j2 : ℚ)) *
          (s.getD j2 0 - s.getD (j2 - 1) 0) :=
        mul_nonneg (by linarith) (by linarith)
      linarith
    linarith

theorem pyQuantiles_eq_ok (data : List ℚ) (n : Nat) (h2 : 2 ≤ data.length) :
    pyQuantiles data n =
      .ok ((List.range' 1 (n - 1)).map
        (quantEntry (pySort data) data.length n)) := by
  simp only [pyQuantiles]
  rw [if_neg (by omega)]

/-- The cut-point formula is the rank interpolation at rank
`i*(ld+1)/n`. -/
theorem quantEntry_eq_interpAt (s : List ℚ) (ld n i : Nat) (hn : 0 < n) :
    quantEntry s ld n i =
      interpAt s ld (((i * (ld + 1) : ℕ) : ℚ) / (n : ℚ)) := by
  simp only [quantEntry, interpAt]
  have hfl : ⌊((i * (ld + 1) : ℕ) : ℚ) / (n : ℚ)⌋₊ = i * (ld + 1) / n := by
    rw [show ((n : ℚ)) = ((n : ℕ) : ℚ) from rfl, Nat.floor_div_nat,
      Nat.floor_natCast]
  rw [hfl]
  set j := min (max (i * (ld + 1) / n) 1) (ld - 1) with hj
  have hnq : (n : ℚ) ≠ 0 := Nat.cast_ne_zero.mpr (by omega)
  field_simp
  push_cast
  ring

/-- `statistics.median` agrees with the rank interpolation at rank
`(ld+1)/2` (for both parities). -/
theorem pyMedian_eq_interpAt (data : List ℚ) (h2 : 2 ≤ data.length) :
    pyMedian data =
      interpAt (pySort data) data.length (((data.length : ℚ) + 1) / 2) := by
  simp only [pyMedian, interpAt]
  have hfl : ⌊((data.length : ℚ) + 1) / 2⌋₊ = (data.length + 1) / 2 := by
    rw [show ((data.length : ℚ) + 1) = (((data.length + 1 : ℕ)) : ℚ) by
        push_cast; ring,
      show ((2 : ℚ)) = ((2 : ℕ) : ℚ) by norm_num,
      Nat.floor_div_nat, Nat.floor_natCast]
  rw [hfl]
  set ld := data.length with hld
  rcases Nat.even_or_odd ld with he | ho
  · obtain ⟨t, ht⟩ := he
    have ht1 : 1 ≤ t := by omega
    have hmod : ¬(ld % 2 = 1) := by omega
    have hj : min (max ((ld + 1) / 2) 1) (ld - 1) = t := by omega
    have hdiv : ld / 2 = t := by omega
    rw [if_neg hmod, hj, hdiv]
    have hcast : ((ld : ℚ) + 1) / 2 - (t : ℚ) = 1 / 2 := by
      rw [ht]
      push_cast
      ring
    rw [hcast]
    ring
  · obtain ⟨t, ht⟩ := ho
    have ht1 : 1 ≤ t := by omega
    have hmod : ld % 2 = 1 := by omega
    have hj : min (max ((ld + 1) / 2) 1) (ld - 1) = t + 1 := by omega
    have hdiv : ld / 2 = t := by omega
    rw [if_pos hmod, hj, hdiv]
    have hcast : ((ld : ℚ) + 1) / 2 - ((t + 1 : ℕ) : ℚ) = 0 := by
      rw [ht]
      push_cast
      ring
    rw [show t + 1 - 1 = t from rfl, hcast]
    ring

/-- C3: in every reachable state of the semaphore-gated run, at most
`concurrency` tasks have an open network call. -/
theorem semaphore_bounds_open_calls {c n : Nat} {s : SemState}
    (h : SemReach c n s) : inCalls s ≤ c := by
  have := semReach_invariant h
  omega

/-- Witness for C3: with concurrency 2 and 3 tasks, after one task acquires
the semaphore the state is reachable and has at most 2 open calls. -/
theorem semaphore_bounds_open_calls_witness :
    inCalls ⟨1, [Phase.inCall, Phase.waiting, Phase.waiting]⟩ ≤ 2 :=
  semaphore_bounds_open_calls
    (@SemReach.step 2 3 ⟨2, List.replicate 3 Phase.waiting⟩
      ⟨1, [Phase.inCall, Phase.waiting, Phase.waiting]⟩ SemReach.init
      (SemStep.acquire 1 [] [Phase.waiting, Phase.waiting]))

/-- C1 counterexample: in a run in which the single request fails, the
returned summary does not report a throughput of 0 — the `throughput_rps`
key is absent from the dict altogether. -/
theorem zero_success_throughput_cex :
    (run_load_test 1 1 (fun _ => badEnv) 0 1).map
      (fun s => (s.successful_requests, s.throughput_rps)) = .ok (0, none) :=
  rfl

/-- C1 (amended): for every run in which zero requests succeed, the summary
reports `success_rate = 0`, carries the explanatory flag
"No successful requests", and omits the throughput, total-time, latency and
token statistics keys entirely (throughput is omitted, not reported as 0). -/
theorem zero_success_summary_flagged (n c : Nat) (envs : Nat → RequestEnv)
    (t0 t1 : ℚ)
    (hfail : ∀ i, i < n → (make_request (envs i) i).isErr = true) :
    ∃ s, run_load_test n c envs t0 t1 = .ok s ∧
      s.successful_requests = 0 ∧ s.success_rate = 0 ∧
      s.throughput_rps = none ∧ s.total_time_seconds = none ∧
      s.latency_stats = none ∧ s.tokens_stats = none ∧
      s.error_flag = some "No successful requests" :=
  ⟨_, run_of_all_fail n c envs t0 t1 hfail, rfl, rfl, rfl, rfl, rfl, rfl, rfl⟩

/-- Witness for C1 (amended) at one failing request. -/
theorem zero_success_summary_flagged_witness :
    (∀ i, i < 1 → (make_request ((fun _ => badEnv) i) i).isErr = true) ∧
    ∃ s, run_load_test 1 1 (fun _ => badEnv) 0 1 = .ok s ∧
      s.successful_requests = 0 ∧ s.success_rate = 0 ∧
      s.throughput_rps = none ∧ s.total_time_seconds = none ∧
      s.latency_stats = none ∧ s.tokens_stats = none ∧
      s.error_flag = some "No successful requests" :=
  ⟨by decide, zero_success_summary_flagged 1 1 (fun _ => badEnv) 0 1 (by decide)⟩

/-- C4: whenever `run_load_test` returns a summary, its `success_rate` is
exactly the number of successful outcomes divided by `total_requests`, in
both branches (all-success, mixed, and all-failure runs alike). -/
theorem success_rate_exact (n c : Nat) (envs : Nat → RequestEnv)
    (t0 t1 : ℚ) (s : Summary) (hn : 0 < n)
    (h : run_load_test n c envs t0 t1 = .ok s) :
    s.success_rate =
      (((collectResults n envs).filter Outcome.isSucc).length : ℚ) / n := by
  cases hfil : (collectResults n envs).filter Outcome.isSucc with
  | nil =>
    simp [run_load_test, summarize, hfil] at h
    simp [← h, hfil]
  | cons a l =>
    unfold run_load_test at h
    cases hls : latencyStatsFrom ((a :: l).map Outcome.latency_ms) with
    | error e =>
      rw [summarize_cons_err n c t0 t1 _ a l e hfil hls] at h
      simp at h
    | ok ls =>
      rw [summarize_cons_ok n c t0 t1 _ a l ls hfil hls] at h
      injection h with h2
      subst h2
      rfl

/-- Witness for C4: two requests, both successful, give success rate 1. -/
theorem success_rate_exact_witness :
    0 < 2 ∧
    ((run_load_test 2 1 (fun _ => okEnv) 0 1).map Summary.success_rate
        = .ok 1 →
      ∀ s, run_load_test 2 1 (fun _ => okEnv) 0 1 = .ok s →
        s.success_rate =
          (((collectResults 2 fun _ => okEnv).filter
            Outcome.isSucc).length : ℚ) / 2) :=
  ⟨by decide, fun _ s hs => success_rate_exact 2 1 (fun _ => okEnv) 0 1 s
    (by decide) hs⟩

/-- C5: `make_request` never lets a fault escape: for every transport
behaviour it returns either a success outcome or a typed error outcome
whose cause is the numeric HTTP status (non-200 response), the exception
text (transport failure or timeout), or the body-parsing exception text
(malformed 200 response), carrying the latency measured up to that point. -/
theorem make_request_never_raises (env : RequestEnv) (rid : Nat) :
    (∃ lat tok mdl,
        make_request env rid = .success rid lat tok env.start mdl) ∨
    (∃ lat cause,
        make_request env rid = .error rid lat cause env.start ∧
        ((∃ st body, env.http = .response st lat body ∧ st ≠ 200 ∧
            cause = .code st) ∨
         (∃ msg, env.http = .raised msg lat ∧ cause = .message msg) ∨
         (∃ l body, env.http = .response 200 l body ∧ body.content = none ∧
            cause = .message malformedMsg ∧ lat = env.excLatency))) := by
  obtain ⟨start, http, excL⟩ := env
  cases http with
  | raised msg lat =>
    exact .inr ⟨lat, .message msg, rfl, .inr (.inl ⟨msg, rfl, rfl⟩)⟩
  | response st lat body =>
    by_cases h200 : st = 200
    · subst h200
      cases hc : body.content with
      | some content =>
        exact .inl ⟨lat, tokensOf content, body.model.getD "unknown",
          by simp [make_request, hc]⟩
      | none =>
        exact .inr ⟨excL, .message malformedMsg, by simp [make_request, hc],
          .inr (.inr ⟨lat, body, rfl, hc, rfl, rfl⟩)⟩
    · exact .inr ⟨lat, .code st, by simp [make_request, h200],
        .inl ⟨st, body, rfl, h200, rfl⟩⟩

/-- C9: a run in which exactly one request succeeds does not return a
summary: the first `statistics.quantiles` call on the single-element
latency list raises `StatisticsError`, which escapes `run_load_test` (only
the zero-success case is guarded). -/
theorem single_success_raises (n c : Nat) (envs : Nat → RequestEnv)
    (t0 t1 : ℚ)
    (h1 : ((collectResults n envs).filter Outcome.isSucc).length = 1) :
    run_load_test n c envs t0 t1 = .error .statisticsError := by
  obtain ⟨a, hfil⟩ := List.length_eq_one.mp h1
  unfold run_load_test
  exact summarize_cons_err n c t0 t1 _ a [] .statisticsError hfil rfl

/-- Environments in which only request 0 succeeds. -/
def mixEnvs : Nat → RequestEnv := fun i => if i = 0 then okEnv else badEnv

/-- Witness for C9: two requests, exactly one success, the run raises. -/
theorem single_success_raises_witness :
    ((collectResults 2 mixEnvs).filter Outcome.isSucc).length = 1 ∧
    run_load_test 2 2 mixEnvs 0 1 = .error .statisticsError :=
  ⟨rfl, single_success_raises 2 2 mixEnvs 0 1 rfl⟩

/-- C10: after a zero-success run, the driver saves the results file and
prints the first four summary lines, then raises `KeyError` on the missing
`throughput_rps` key. -/
theorem zero_success_driver_keyerror (n c : Nat) (envs : Nat → RequestEnv)
    (t0 t1 : ℚ)
    (hfail : ∀ i, i < n → (make_request (envs i) i).isErr = true) :
    ∃ s, run_load_test n c envs t0 t1 = .ok s ∧
      (mainAfterSummary s).1 = [Event.saved,
        Event.printed (.totalRequests n),
        Event.printed (.successful 0),
        Event.printed (.failed
          ((collectResults n envs).filter Outcome.isErr).length),
        Event.printed (.successRate 0)] ∧
      (mainAfterSummary s).2 = some (PyErr.keyError "throughput_rps") :=
  ⟨_, run_of_all_fail n c envs t0 t1 hfail, rfl, rfl⟩

/-- C6: for every latency sample with at least two elements the summary's
percentile computation succeeds, is deterministic (it is a pure function of
the sample), and is monotone: median ≤ p95 ≤ p99. -/
theorem percentiles_monotone (lats : List ℚ) (h2 : 2 ≤ lats.length) :
    ∃ ls, latencyStatsFrom lats = .ok ls ∧
      ls.median_ms ≤ ls.p95_ms ∧ ls.p95_ms ≤ ls.p99_ms := by
  have hq20 := pyQuantiles_eq_ok lats 20 h2
  have hq100 := pyQuantiles_eq_ok lats 100 h2
  have hsort : List.Sorted (· ≤ ·) (pySort lats) :=
    List.sorted_insertionSort _ _
  have hlen : (pySort lats).length = lats.length := by simp [pySort]
  have e95 : ((List.range' 1 (20 - 1)).map
      (quantEntry (pySort lats) lats.length 20)).getD 18 0 =
      quantEntry (pySort lats) lats.length 20 19 := rfl
  have e99 : ((List.range' 1 (100 - 1)).map
      (quantEntry (pySort lats) lats.length 100)).getD 98 0 =
      quantEntry (pySort lats) lats.length 100 99 := rfl
  have hcast0 : (0 : ℚ) ≤ (lats.length : ℚ) := Nat.cast_nonneg _
  have hmed95 : pyMedian lats ≤ quantEntry (pySort lats) lats.length 20 19 := by
    rw [quantEntry_eq_interpAt _ _ _ _ (by norm_num),
      pyMedian_eq_interpAt lats h2]
    apply interpAt_mono hsort hlen h2
    push_cast
    rw [div_le_div_iff (by norm_num) (by norm_num)]
    linarith
  have h9599 : quantEntry (pySort lats) lats.length 20 19 ≤
      quantEntry (pySort lats) lats.length 100 99 := by
    rw [quantEntry_eq_interpAt _ _ _ _ (by norm_num),
      quantEntry_eq_interpAt _ _ _ _ (by norm_num)]
    apply interpAt_mono hsort hlen h2
    push_cast
    rw [div_le_div_iff (by norm_num) (by norm_num)]
    linarith
  have hok : latencyStatsFrom lats = .ok
      { mean_ms := pyMean lats
        median_ms := pyMedian lats
        p95_ms := ((List.range' 1 (20 - 1)).map
          (quantEntry (pySort lats) lats.length 20)).getD 18 0
        p99_ms := ((List.range' 1 (100 - 1)).map
          (quantEntry (pySort lats) lats.length 100)).getD 98 0
        min_ms := lats.foldr min (lats.getD 0 0)
        max_ms := lats.foldr max (lats.getD 0 0) } := by
    simp only [latencyStatsFrom]
    rw [hq20, hq100]
    rfl
  refine ⟨_, hok, ?_, ?_⟩
  · show pyMedian lats ≤ ((List.range' 1 (20 - 1)).map
      (quantEntry (pySort lats) lats.length 20)).getD 18 0
    rw [e95]
    exact hmed95
  · show ((List.range' 1 (20 - 1)).map
        (quantEntry (pySort lats) lats.length 20)).getD 18 0 ≤
      ((List.range' 1 (100 - 1)).map
        (quantEntry (pySort lats) lats.length 100)).getD 98 0
    rw [e95, e99]
    exact h9599

/-- Witness for C6 at the sample `[1, 2]`. -/
theorem percentiles_monotone_witness :
    2 ≤ ([(1 : ℚ), 2]).length ∧
    ∃ ls, latencyStatsFrom [(1 : ℚ), 2] = .ok ls ∧
      ls.median_ms ≤ ls.p95_ms ∧ ls.p95_ms ≤ ls.p99_ms :=
  ⟨by decide, percentiles_monotone [(1 : ℚ), 2] (by decide)⟩

/-- C7: the latency statistics block of the summary is exactly the one
computed from the latencies of the successful outcomes; latencies of error
outcomes contribute nothing (the whole block, and whether it raises, is a
function of the success sublist only). -/
theorem latency_stats_successes_only (n c : Nat) (t0 t1 : ℚ)
    (results : List Outcome)
    (hne : results.filter Outcome.isSucc ≠ []) :
    (summarize n c t0 t1 results).map Summary.latency_stats =
      (latencyStatsFrom
        ((results.filter Outcome.isSucc).map Outcome.latency_ms)).map some := by
  obtain ⟨a, l, hfil⟩ : ∃ a l, results.filter Outcome.isSucc = a :: l := by
    cases hx : results.filter Outcome.isSucc with
    | nil => exact absurd hx hne
    | cons a l => exact ⟨a, l, rfl⟩
  rw [hfil]
  cases hls : latencyStatsFrom ((a :: l).map Outcome.latency_ms) with
  | error e =>
    rw [summarize_cons_err n c t0 t1 _ a l e hfil hls]
    rfl
  | ok ls =>
    rw [summarize_cons_ok n c t0 t1 _ a l ls hfil hls]
    rfl

/-- A mixed outcome list used by witnesses: two successes, one error. -/
def witnessResults : List Outcome :=
  [.success 0 10 5 0 "llama", .error 1 3 (.code 500) 0,
    .success 2 20 7 0 "llama"]

/-- Witness for C7 on a mixed outcome list. -/
theorem latency_stats_successes_only_witness :
    witnessResults.filter Outcome.isSucc ≠ [] ∧
    (summarize 3 2 0 1 witnessResults).map Summary.latency_stats =
      (latencyStatsFrom
        ((witnessResults.filter Outcome.isSucc).map
          Outcome.latency_ms)).map some :=
  ⟨by decide, latency_stats_successes_only 3 2 0 1 witnessResults (by decide)⟩

/-- C8: the token statistics block reports the mean tokens per successful
response and the sum of all tokens generated, and each success's token
count is the whitespace-delimited word count of the returned message
content. -/
theorem tokens_stats_mean_and_sum (n c : Nat) (t0 t1 : ℚ)
    (results : List Outcome) (s : Summary)
    (hne : results.filter Outcome.isSucc ≠ [])
    (h : summarize n c t0 t1 results = .ok s) :
    s.tokens_stats = some
      { mean_tokens :=
          ((((results.filter Outcome.isSucc).map Outcome.tokens).sum : ℕ) : ℚ) /
            ((results.filter Outcome.isSucc).length : ℚ)
        total_tokens := ((results.filter Outcome.isSucc).map Outcome.tokens).sum } ∧
    ∀ env rid lat content mdl,
      env.http = .response 200 lat ⟨some content, mdl⟩ →
      (make_request env rid).tokens = tokensOf content := by
  constructor
  · obtain ⟨a, l, hfil⟩ : ∃ a l, results.filter Outcome.isSucc = a :: l := by
      cases hx : results.filter Outcome.isSucc with
      | nil => exact absurd hx hne
      | cons a l => exact ⟨a, l, rfl⟩
    cases hls : latencyStatsFrom ((a :: l).map Outcome.latency_ms) with
    | error e =>
      rw [summarize_cons_err n c t0 t1 _ a l e hfil hls] at h
      exact absurd h (by simp)
    | ok ls =>
      rw [summarize_cons_ok n c t0 t1 _ a l ls hfil hls] at h
      injection h with h2
      subst h2
      rw [hfil]
      show some
        ({ mean_tokens :=
            pyMean (((a :: l).map Outcome.tokens).map (Nat.cast : Nat → ℚ))
           total_tokens := ((a :: l).map Outcome.tokens).sum } : TokensStats)
        = some
        ({ mean_tokens := ((((a :: l).map Outcome.tokens).sum : ℕ) : ℚ) /
            ((a :: l).length : ℚ)
           total_tokens := ((a :: l).map Outcome.tokens).sum } : TokensStats)
      simp only [pyMean, List.length_map]
      rw [← Nat.cast_list_sum]
  · intro env rid lat content mdl hh
    simp [make_request, hh, Outcome.tokens]

/-- Witness for C8 on a mixed outcome list. -/
theorem tokens_stats_mean_and_sum_witness :
    witnessResults.filter Outcome.isSucc ≠ [] ∧
    ∃ s, summarize 3 2 0 1 witnessResults = .ok s ∧
      (s.tokens_stats = some
        { mean_tokens :=
            ((((witnessResults.filter Outcome.isSucc).map
              Outcome.tokens).sum : ℕ) : ℚ) /
              ((witnessResults.filter Outcome.isSucc).length : ℚ)
          total_tokens := ((witnessResults.filter Outcome.isSucc).map
            Outcome.tokens).sum } ∧
      ∀ env rid lat content mdl,
        env.http = .response 200 lat ⟨some content, mdl⟩ →
        (make_request env rid).tokens = tokensOf content) :=
  ⟨by decide, _, rfl,
    tokens_stats_mean_and_sum 3 2 0 1 witnessResults _ (by decide) rfl⟩

/-- Witness for C10 at one failing request. -/
theorem zero_success_driver_keyerror_witness :
    (∀ i, i < 1 → (make_request ((fun _ => badEnv) i) i).isErr = true) ∧
    ∃ s, run_load_test 1 3 (fun _ => badEnv) 0 1 = .ok s ∧
      (mainAfterSummary s).1 = [Event.saved,
        Event.printed (.totalRequests 1),
        Event.printed (.successful 0),
        Event.printed (.failed
          ((collectResults 1 fun _ => badEnv).filter Outcome.isErr).length),
        Event.printed (.successRate 0)] ∧
      (mainAfterSummary s).2 = some (PyErr.keyError "throughput_rps") :=
  ⟨by decide, zero_success_driver_keyerror 1 3 (fun _ => badEnv) 0 1
    (by decide)⟩

end LoadTest
